import Mathlib

/-!
# RxPoller — a shallow embedding in Lean 4

This file embeds the observable behaviour of the `rx-poller` repository
(`src/RxPoller.ts` and its compiled counterpart `dist/RxPoller.js`) and
proves properties of that embedding.

Modelling choices:
* Durations are `Nat` (milliseconds).  JavaScript numbers at these
  magnitudes behave like naturals for the operations used
  (`*`, `Math.pow`, `Math.min`).
* RxJS `BehaviorSubject`s (`_errorCount$`, `_interval$`, `_maxInterval$`)
  are fields of an explicit state record; `onNext` is a field update and
  `getValue` is a field read.
* The reactive pipeline (`fromPromise … repeatWhen … retryWhen … publish`)
  is modelled as a deterministic event-driven state machine: timers firing
  and promise settlements are explicit events, and each step reports what
  externally happened (an invocation of the action, a delivery to
  subscribers, a newly scheduled delay).
* The static registry `RxPoller._pollers` is a JavaScript `Map` object,
  modelled with its two distinct storage areas: the internal map data used
  by `Map.get` / `Map.set`, and ordinary object properties, which is what
  the `delete this._pollers[name]` statement in `dist/RxPoller.js`
  actually touches.
-/

/-- Configuration record `IRxPollerConfig`: both fields optional.
`none` models an absent (`undefined`) field. -/
structure IRxPollerConfig where
  interval : Option Nat
  maxInterval : Option Nat
deriving Repr, DecidableEq

/-- JavaScript truthiness of an optional number: `undefined` and `0` are
falsy, every other number is truthy.  `jsOrOpt a b` is the JS expression
`a || b` where `a` is an optional number and `b` a number. -/
def jsOrOpt : Option Nat → Nat → Nat
  | some (n + 1), _ => n + 1
  | _, b => b

/-- JavaScript `a || b` for two plain numbers: `0` is falsy. -/
def jsOrNum (a b : Nat) : Nat :=
  if a = 0 then b else a

/-- The zip function of `_computedInterval$` (src/RxPoller.ts lines 137-141):
`min(interval * Math.pow(2, errorCnt), maxInterval)`. -/
def computedInterval (interval errorCnt maxInterval : Nat) : Nat :=
  min (interval * 2 ^ errorCnt) maxInterval

/-- The state of one `RxPoller` instance.

* `errorCount`, `interval`, `maxInterval` — current values of the three
  `BehaviorSubject`s.
* `chainActive` — the `ConnectableObservable` `_poller$` is connected (the
  repeat/retry chain is live).
* `connIsLive` — the `_connection` field currently holds the live
  connection's disposable (rather than the initial no-op disposable).
* `inFlight` — an action promise is outstanding.
* `timer` — a pending inter-cycle timer inside the chain, with its delay.
* `pendingStart` — the timer created by `start()` that will `connect()`
  when it fires, with its delay.  `stop()` does not touch it, since
  `stop()` only disposes `_connection`. -/
structure PollerState where
  errorCount : Nat
  interval : Nat
  maxInterval : Nat
  chainActive : Bool
  connIsLive : Bool
  inFlight : Bool
  timer : Option Nat
  pendingStart : Option Nat
deriving Repr, DecidableEq

/-- Method `setConfig` (src/RxPoller.ts lines 206-209):
`_interval$.onNext(config.interval || _interval$.getValue() || 8000)` and
`_maxInterval$.onNext(config.maxInterval || _maxInterval$.getValue() || 300000)`. -/
def setConfig (config : IRxPollerConfig) (s : PollerState) : PollerState :=
  { s with
    interval := jsOrOpt config.interval (jsOrNum s.interval 8000)
    maxInterval := jsOrOpt config.maxInterval (jsOrNum s.maxInterval 300000) }

/-- The field initialisers of a fresh instance, before the constructor body
runs.  `maxInit` is the initial value of `_maxInterval$`: the TypeScript
source (`src/RxPoller.ts` line 130) uses `8000`, the compiled
`dist/RxPoller.js` (line 111) uses `0`.  `_interval$` starts at `0` and
`_errorCount$` at `0` in both. -/
def initialFields (maxInit : Nat) : PollerState :=
  { errorCount := 0
    interval := 0
    maxInterval := maxInit
    chainActive := false
    connIsLive := false
    inFlight := false
    timer := none
    pendingStart := none }

/-- The state of a poller right after `new RxPoller(name, config)` ran its
`setConfig(config)` call (registration is modelled separately). -/
def mkPoller (maxInit : Nat) (config : IRxPollerConfig) : PollerState :=
  setConfig config (initialFields maxInit)

/-- External events driving one poller. -/
inductive PollEv where
  /-- A call to `start(forceStart)`. -/
  | start (forceStart : Bool)
  /-- The timer created by `start()` fires, running
  `this._connection = this._poller$.connect()`. -/
  | fireStartTimer
  /-- A call to `stop()`, i.e. `this._connection.dispose()`. -/
  | stop
  /-- The outstanding action promise settles: resolved with value `res`
  when `ok`, rejected when `¬ ok`. -/
  | settle (ok : Bool) (res : Nat)
  /-- The pending inter-cycle timer inside the chain fires, resubscribing
  `fromPromise` and so invoking the action again. -/
  | fireTimer
  /-- A call to `setConfig(config)`. -/
  | setConfigEv (config : IRxPollerConfig)
deriving Repr, DecidableEq

/-- Externally visible effects of one step. -/
structure PollOut where
  /-- The action was invoked by this step. -/
  invoked : Bool
  /-- A result was delivered to subscribers by this step. -/
  delivered : Option Nat
  /-- A delay was scheduled by this step (a timer armed), with its length. -/
  scheduled : Option Nat
deriving Repr, DecidableEq

/-- The step with no external effect. -/
def PollOut.none : PollOut := ⟨false, Option.none, Option.none⟩

/-- One step of the poller machine. -/
def step (s : PollerState) : PollEv → PollerState × PollOut
  | .start forceStart =>
      -- `Observable.timer(forceStart ? 0 : this._interval$.getValue())`
      -- is subscribed; nothing else happens until it fires.
      let d := if forceStart then 0 else s.interval
      ({ s with pendingStart := some d }, ⟨false, none, some d⟩)
  | .fireStartTimer =>
      match s.pendingStart with
      | none => (s, PollOut.none)
      | some _ =>
          if s.chainActive then
            -- connect() on an already connected observable returns the
            -- existing connection; no new subscription of the source.
            ({ s with pendingStart := none, connIsLive := true }, PollOut.none)
          else
            -- connect() subscribes the source: `fromPromise(() => this._action())`
            -- runs, invoking the action immediately.
            ({ s with pendingStart := none, chainActive := true,
                      connIsLive := true, inFlight := true },
             ⟨true, none, none⟩)
  | .stop =>
      -- `this._connection.dispose()`: a no-op unless `_connection` holds
      -- the live connection.  Disposing tears down the chain (cancelling
      -- its inner timer); a promise already in flight keeps running
      -- externally.  The `start()` timer is NOT part of `_connection`.
      if s.connIsLive then
        ({ s with chainActive := false, connIsLive := false, timer := none },
         PollOut.none)
      else
        (s, PollOut.none)
  | .settle ok res =>
      if s.inFlight then
        if s.chainActive then
          if ok then
            -- value reaches subscribers via the publish subject, then the
            -- source completes: repeatWhen runs
            -- `do(_ => _errorCount$.onNext(0))`, reads `_computedInterval$`
            -- (zip of the subjects' current values) and arms a timer.
            let d := computedInterval s.interval 0 s.maxInterval
            ({ s with inFlight := false, errorCount := 0, timer := some d },
             ⟨false, some res, some d⟩)
          else
            -- the error is intercepted by retryWhen before reaching the
            -- publish subject:
            -- `do(err => _errorCount$.onNext(_errorCount$.getValue() + 1))`,
            -- then `_computedInterval$` and a timer.
            let d := computedInterval s.interval (s.errorCount + 1) s.maxInterval
            ({ s with inFlight := false, errorCount := s.errorCount + 1,
                      timer := some d },
             ⟨false, none, some d⟩)
        else
          -- the chain was disposed while the promise was in flight: the
          -- settlement finds no subscriber; nothing is updated.
          ({ s with inFlight := false }, PollOut.none)
      else (s, PollOut.none)
  | .fireTimer =>
      match s.timer with
      | none => (s, PollOut.none)
      | some _ =>
          if s.chainActive then
            ({ s with timer := none, inFlight := true }, ⟨true, none, none⟩)
          else (s, PollOut.none)
  | .setConfigEv config => (setConfig config s, PollOut.none)

/-- Run a list of events, collecting every step's output. -/
def run (s : PollerState) : List PollEv → PollerState × List PollOut
  | [] => (s, [])
  | e :: rest =>
      ((run (step s e).1 rest).1, (step s e).2 :: (run (step s e).1 rest).2)

/-- The delays scheduled along a run, in order. -/
def scheduledDelays (outs : List PollOut) : List Nat :=
  outs.filterMap (·.scheduled)

/-- The two ways an `RxPoller` call can throw, as seen by a caller:
`typeErrorUndefined` — a property was read off `undefined` (the `TypeError`
raised by `setConfig(undefined)`); `duplicateName` — the string
`"Cannot cache two RxPollers with the same name."` thrown by `setPoller`. -/
inductive JsError where
  | typeErrorUndefined
  | duplicateName
deriving Repr, DecidableEq

/-- A JavaScript `Map` object holding values of type `α` under string keys.
`Map.prototype.get` / `Map.prototype.set` operate on the internal map data
(`mapData`); bracket access such as `delete m[k]` operates on the object's
ordinary properties (`props`), a separate storage area. -/
structure JSMap (α : Type) where
  mapData : List (String × α)
  props : List (String × α)
deriving Repr, DecidableEq

/-- The expression `new Map()`. -/
def JSMap.empty {α : Type} : JSMap α := ⟨[], []⟩

/-- Update an association list at a key, or append the binding. -/
def setEntry {α : Type} : List (String × α) → String → α → List (String × α)
  | [], k, v => [(k, v)]
  | (k', v') :: rest, k, v =>
      if k' = k then (k, v) :: rest else (k', v') :: setEntry rest k v

/-- Call `m.get(k)` on a `Map`: reads the internal map data. -/
def JSMap.get {α : Type} (m : JSMap α) (k : String) : Option α :=
  m.mapData.lookup k

/-- Call `m.set(k, v)` on a `Map`: writes the internal map data. -/
def JSMap.set {α : Type} (m : JSMap α) (k : String) (v : α) : JSMap α :=
  { m with mapData := setEntry m.mapData k v }

/-- Statement `delete m[k]` on a `Map` object: removes the ordinary property `k`
(if any) and leaves the internal map data untouched. -/
def JSMap.deleteProp {α : Type} (m : JSMap α) (k : String) : JSMap α :=
  { m with props := m.props.filter (fun p => p.1 ≠ k) }

/-- Method `RxPoller.setPoller` (src/RxPoller.ts lines 179-183): throws when the
name is taken, otherwise stores the instance. -/
def setPoller {α : Type} (name : String) (instc : α) (reg : JSMap α) :
    Except JsError (JSMap α) :=
  match reg.get name with
  | some _ => .error .duplicateName
  | none => .ok (reg.set name instc)

/-- Method `RxPoller.getPoller` (src/RxPoller.ts lines 190-192). -/
def getPoller {α : Type} (name : String) (reg : JSMap α) : Option α :=
  reg.get name

/-- Method `RxPoller.removePoller` (dist/RxPoller.js lines 210-212):
`delete this._pollers[name]` — a property delete on the `Map` object. -/
def removePoller {α : Type} (name : String) (reg : JSMap α) : JSMap α :=
  reg.deleteProp name

/-- Method `stop()` (src/RxPoller.ts lines 234-236): `this._connection.dispose()`. -/
def stopPoller (s : PollerState) : PollerState :=
  (step s .stop).1

/-- Method `destroy()` (dist/RxPoller.js lines 206-209): `this.stop()` then
`RxPoller.removePoller(this._name)`. -/
def destroy (name : String) (s : PollerState) (reg : JSMap PollerState) :
    PollerState × JSMap PollerState :=
  (stopPoller s, removePoller name reg)

/-- Call `setConfig(config)` where `config` may be `undefined`: the body reads
`config.interval`, so an absent argument raises a `TypeError`. -/
def setConfigChecked (config : Option IRxPollerConfig) (s : PollerState) :
    Except JsError PollerState :=
  match config with
  | none => .error .typeErrorUndefined
  | some c => .ok (setConfig c s)

/-- Constructor `new RxPoller(name, config)` (src/RxPoller.ts lines 166-170) together
with the registry it mutates: field initialisers, then `setConfig(config)`,
then `RxPoller.setPoller(name, this)`.  A thrown error leaves the registry
as it was (setPoller checks before writing). -/
def constructRxPoller (maxInit : Nat) (name : String)
    (config : Option IRxPollerConfig) (reg : JSMap PollerState) :
    Except JsError (PollerState × JSMap PollerState) := do
  let s ← setConfigChecked config (initialFields maxInit)
  let reg' ← setPoller name s reg
  return (s, reg')

/-- Is an `Except` value a success? -/
def exceptOk {ε α : Type} : Except ε α → Bool
  | .ok _ => true
  | .error _ => false

/-- What a JavaScript expression in the action pipeline can evaluate to:
either a promise that resolves with `val`, or a bare function value
(not a promise).  An action is a `Unit → ActionReturn α` whose invocation
yields a promise. -/
inductive ActionReturn (α : Type) where
  | promise (val : α)
  | rawFunction (fn : Unit → ActionReturn α)

/-- Method `setAction` in src/RxPoller.ts (lines 199-201): `this._action = () => fn;`
— the stored thunk returns the function `fn` itself. -/
def setActionSrc {α : Type} (fn : Unit → ActionReturn α) : Unit → ActionReturn α :=
  fun _ => .rawFunction fn

/-- Method `setAction` in dist/RxPoller.js (lines 167-170):
`this._action = function () { return fn(); };` — the stored thunk invokes
`fn` and returns its result. -/
def setActionDist {α : Type} (fn : Unit → ActionReturn α) : Unit → ActionReturn α :=
  fun _ => fn ()

/-- What `Observable.fromPromise(() => this._action())` can await: the
asynchronous result if `_action()` produced a promise, nothing otherwise
(a bare function has no resolution value). -/
def awaitedResult {α : Type} : ActionReturn α → Option α
  | .promise v => some v
  | .rawFunction _ => none

/-! ## Helper lemmas -/

/-- Expression `a || b` is nonzero when the fallback `b` is nonzero. -/
theorem jsOrOpt_ne_zero (a : Option Nat) (b : Nat) (hb : b ≠ 0) : jsOrOpt a b ≠ 0 := by
  match a with
  | none => simpa [jsOrOpt] using hb
  | some 0 => simpa [jsOrOpt] using hb
  | some (n + 1) => simp [jsOrOpt]

/-- Expression `a || b` keeps a truthy `a`. -/
theorem jsOrNum_of_ne_zero (a b : Nat) (ha : a ≠ 0) : jsOrNum a b = a :=
  if_neg ha

/-- After any `setConfig`, both stored durations are truthy (nonzero), since
the hard defaults 8000 and 300000 end every `||` chain. -/
theorem setConfig_stores_truthy (c : IRxPollerConfig) (s : PollerState) :
    (setConfig c s).interval ≠ 0 ∧ (setConfig c s).maxInterval ≠ 0 := by
  refine ⟨jsOrOpt_ne_zero _ _ ?_, jsOrOpt_ne_zero _ _ ?_⟩ <;>
    [skip; skip] <;> unfold jsOrNum <;> split <;> simp_all

/-- A poller on which `stop()` took effect and whose `start()` timer is not
pending: its chain is down, its `_connection` is stale, and no start timer
will fire. -/
def halted (s : PollerState) : Prop :=
  s.chainActive = false ∧ s.connIsLive = false ∧ s.pendingStart = none

/-- Events other than `start`. -/
def isStartEv : PollEv → Bool
  | .start _ => true
  | _ => false

/-- In a halted state, any event other than `start` keeps the state halted,
produces no external effect, and leaves the error count unchanged. -/
theorem step_halted (s : PollerState) (e : PollEv) (hs : halted s)
    (he : isStartEv e = false) :
    halted (step s e).1 ∧ (step s e).2 = PollOut.none ∧
      (step s e).1.errorCount = s.errorCount := by
  obtain ⟨hchain, hconn, hpend⟩ := hs
  cases e with
  | start f => simp [isStartEv] at he
  | fireStartTimer => simp [step, hpend, halted, hchain, hconn]
  | stop => simp [step, hconn, halted, hchain, hpend]
  | settle ok res =>
      by_cases hf : s.inFlight <;>
        simp [step, hf, hchain, halted, hconn, hpend]
  | fireTimer =>
      cases ht : s.timer <;> simp [step, ht, hchain, halted, hconn, hpend]
  | setConfigEv c => simp [step, setConfig, halted, hchain, hconn, hpend]

/-- Running any sequence of non-`start` events from a halted state produces
no external effects and never changes the error count. -/
theorem run_halted (evs : List PollEv) (s : PollerState) (hs : halted s)
    (hevs : ∀ e ∈ evs, isStartEv e = false) :
    (∀ o ∈ (run s evs).2, o = PollOut.none) ∧
      (run s evs).1.errorCount = s.errorCount := by
  induction evs generalizing s with
  | nil => simp [run]
  | cons e rest ih =>
      have he : isStartEv e = false := hevs e (by simp)
      have hstep := step_halted s e hs he
      have hrest := ih (step s e).1 hstep.1 (fun x hx => hevs x (by simp [hx]))
      refine ⟨?_, ?_⟩
      · intro o ho
        simp only [run, List.mem_cons] at ho
        rcases ho with ho | ho
        · exact ho ▸ hstep.2.1
        · exact hrest.1 o ho
      · simp only [run]
        exact hrest.2.trans hstep.2.2

/-! ## Claims -/

/-- C1: for every interval `i`, every `maxInterval m ≥ i` and every error
count `e`, the computed next delay is `min (i * 2 ^ e) m`; with `e = 0` it
is exactly `i`, and it is monotonically non-decreasing in `e`. -/
theorem computedInterval_spec (i m : Nat) (h : i ≤ m) :
    (∀ e : Nat, computedInterval i e m = min (i * 2 ^ e) m) ∧
    computedInterval i 0 m = i ∧
    (∀ e₁ e₂ : Nat, e₁ ≤ e₂ → computedInterval i e₁ m ≤ computedInterval i e₂ m) := by
  refine ⟨fun e => rfl, ?_, ?_⟩
  · simp [computedInterval, Nat.min_eq_left h]
  · intro e₁ e₂ hle
    exact min_le_min
      (Nat.mul_le_mul_left _ (Nat.pow_le_pow_right (by norm_num) hle)) le_rfl

/-- Witness for C1 at `i = 1000`, `m = 10000`. -/
theorem computedInterval_spec_witness :
    computedInterval 1000 0 10000 = 1000 ∧
    computedInterval 1000 2 10000 ≤ computedInterval 1000 7 10000 :=
  ⟨(computedInterval_spec 1000 10000 (by decide)).2.1,
   (computedInterval_spec 1000 10000 (by decide)).2.2 2 7 (by decide)⟩

/-- C2 (defect in `src/RxPoller.ts`): `setAction` stores `() => fn`, so
`_action()` evaluates to the bare function `fn` rather than its invocation
result; `fromPromise` obtains no asynchronous result to await.  The
`dist/RxPoller.js` build stores `() => fn()` and does yield the promised
value — the behaviour the claim (and the spec's stated contract) describe. -/
theorem setAction_src_divergence :
    awaitedResult ((setActionSrc (fun _ => ActionReturn.promise (42 : Nat))) ()) = none ∧
    awaitedResult ((setActionDist (fun _ => ActionReturn.promise (42 : Nat))) ()) = some 42 :=
  ⟨rfl, rfl⟩

/-- C3 counterexample: `start(false)` then `stop()` before the initial delay
elapsed; when the start timer fires it still runs
`this._connection = this._poller$.connect()`, so an invocation of the action
fires after `stop()` returned — `stop()` never cancels the start timer. -/
theorem stop_then_invocation_fires :
    (step (step (step (mkPoller 8000 ⟨some 1000, some 10000⟩)
      (.start false)).1 .stop).1 .fireStartTimer).2.invoked = true := by
  decide

/-- C3 amended: if the `start()` timer is not pending when `stop()` is called
(and `_connection` tracks the live chain), then after `stop()` no event other
than a new `start` ever yields an invocation, a delivery, or a new timer, and
a late settlement of an in-flight action leaves the error count unchanged. -/
theorem stop_halts_forever (s : PollerState) (evs : List PollEv)
    (hp : s.pendingStart = none) (hcl : s.chainActive = true → s.connIsLive = true)
    (hevs : ∀ e ∈ evs, isStartEv e = false) :
    (∀ o ∈ (run (stopPoller s) evs).2,
        o.invoked = false ∧ o.delivered = none ∧ o.scheduled = none) ∧
      (run (stopPoller s) evs).1.errorCount = s.errorCount := by
  have hhalted : halted (stopPoller s) ∧ (stopPoller s).errorCount = s.errorCount := by
    unfold stopPoller
    by_cases hc : s.connIsLive
    · simp [step, hc, halted, hp]
    · have : s.chainActive = false := by
        cases hca : s.chainActive
        · rfl
        · exact absurd (hcl hca) hc
      simp [step, hc, halted, this, hp]
  have h := run_halted evs (stopPoller s) hhalted.1 hevs
  refine ⟨fun o ho => ?_, h.2.trans hhalted.2⟩
  have := h.1 o ho
  subst this
  exact ⟨rfl, rfl, rfl⟩

/-- A poller mid-invocation with two accumulated errors, used to witness C3:
the chain is live, an action is in flight, no start timer is pending. -/
def inFlightPoller : PollerState :=
  { errorCount := 2, interval := 1000, maxInterval := 10000,
    chainActive := true, connIsLive := true, inFlight := true,
    timer := none, pendingStart := none }

/-- Witness for C3's amended theorem: `stop()` mid-flight, then the action's
late success and a stray timer tick; the error count stays 2 (a live chain
would have reset it to 0). -/
theorem stop_halts_forever_witness :
    (run (stopPoller inFlightPoller) [PollEv.settle true 7, PollEv.fireTimer]).1.errorCount = 2 := by
  have h := stop_halts_forever inFlightPoller [PollEv.settle true 7, PollEv.fireTimer]
    rfl (fun h => rfl) (by decide)
  exact h.2

/-- C4 (defect in `dist/RxPoller.js`): `removePoller` runs
`delete this._pollers[name]`, a property delete on the `Map` object, which
leaves the internal map data intact.  After `destroy()` the poller is still
returned by `getPoller` and the name still collides on re-registration. -/
theorem destroy_divergence :
    getPoller "posts"
      (destroy "posts" (mkPoller 0 ⟨some 1000, some 10000⟩)
        (JSMap.empty.set "posts" (mkPoller 0 ⟨some 1000, some 10000⟩))).2
      = some (mkPoller 0 ⟨some 1000, some 10000⟩) ∧
    setPoller "posts" (mkPoller 0 ⟨some 2000, some 20000⟩)
      (destroy "posts" (mkPoller 0 ⟨some 1000, some 10000⟩)
        (JSMap.empty.set "posts" (mkPoller 0 ⟨some 1000, some 10000⟩))).2
      = .error .duplicateName := by
  constructor <;> rfl

/-- C5 (defect in `src/RxPoller.ts`): with no `interval`/`maxInterval` ever
supplied, the stored interval is indeed 8000, but the stored maxInterval is
8000 — the initialiser `new BehaviorSubject(8000)` is truthy, so the
`|| 300000` fallback is unreachable.  The `dist/RxPoller.js` build
initialises the subject to 0 and does store 300000. -/
theorem default_config_divergence :
    (mkPoller 8000 ⟨none, none⟩).interval = 8000 ∧
    (mkPoller 8000 ⟨none, none⟩).maxInterval = 8000 ∧
    (setConfig ⟨none, none⟩ (mkPoller 8000 ⟨none, none⟩)).maxInterval = 8000 ∧
    (mkPoller 0 ⟨none, none⟩).maxInterval = 300000 := by
  decide

/-- C6: constructing a second poller under a registered name throws the
duplicate-name error, the construction does not complete, and the first
poller is still the one registered under that name. -/
theorem duplicate_name_rejected (name : String) (p : PollerState)
    (reg : JSMap PollerState) (maxInit : Nat) (cfg : IRxPollerConfig)
    (h : getPoller name reg = some p) :
    constructRxPoller maxInit name (some cfg) reg = .error .duplicateName ∧
    getPoller name reg = some p := by
  refine ⟨?_, h⟩
  unfold getPoller at h
  simp [constructRxPoller, setConfigChecked, setPoller, h, bind, Except.bind]

/-- Witness for C6: a registry holding `"posts"`; re-creating `"posts"`. -/
theorem duplicate_name_rejected_witness :
    constructRxPoller 8000 "posts" (some ⟨some 2000, none⟩)
      (JSMap.empty.set "posts" (mkPoller 8000 ⟨some 1000, none⟩))
      = .error .duplicateName :=
  (duplicate_name_rejected "posts" (mkPoller 8000 ⟨some 1000, none⟩)
    (JSMap.empty.set "posts" (mkPoller 8000 ⟨some 1000, none⟩))
    8000 ⟨some 2000, none⟩ (by decide)).1

/-- C7: when a live poller's in-flight action settles, success resets the
error count to 0 and delivers the result to subscribers; failure increments
the error count by one and delivers nothing. -/
theorem settle_updates (s : PollerState) (res : Nat)
    (hc : s.chainActive = true) (hf : s.inFlight = true) :
    ((step s (.settle true res)).1.errorCount = 0 ∧
      (step s (.settle true res)).2.delivered = some res) ∧
    ((step s (.settle false res)).1.errorCount = s.errorCount + 1 ∧
      (step s (.settle false res)).2.delivered = none) := by
  simp [step, hc, hf]

/-- Witness for C7 on a live mid-flight poller. -/
theorem settle_updates_witness :
    ((step inFlightPoller (.settle true 7)).1.errorCount = 0 ∧
      (step inFlightPoller (.settle true 7)).2.delivered = some 7) ∧
    ((step inFlightPoller (.settle false 7)).1.errorCount = 2 + 1 ∧
      (step inFlightPoller (.settle false 7)).2.delivered = none) :=
  settle_updates inFlightPoller 7 rfl rfl

/-- C8: a later `setConfig` that leaves a field unsupplied preserves that
field's stored value from the earlier `setConfig` (the stored value is
always truthy after any `setConfig`, so the `|| getValue()` branch keeps it). -/
theorem setConfig_partial_preserves (s : PollerState) (c₁ c₂ : IRxPollerConfig) :
    (c₂.maxInterval = none →
      (setConfig c₂ (setConfig c₁ s)).maxInterval = (setConfig c₁ s).maxInterval) ∧
    (c₂.interval = none →
      (setConfig c₂ (setConfig c₁ s)).interval = (setConfig c₁ s).interval) := by
  have ht := setConfig_stores_truthy c₁ s
  constructor
  · intro h
    show jsOrOpt c₂.maxInterval (jsOrNum (setConfig c₁ s).maxInterval 300000)
      = (setConfig c₁ s).maxInterval
    rw [h]
    show jsOrNum (setConfig c₁ s).maxInterval 300000 = (setConfig c₁ s).maxInterval
    exact jsOrNum_of_ne_zero _ _ ht.2
  · intro h
    show jsOrOpt c₂.interval (jsOrNum (setConfig c₁ s).interval 8000)
      = (setConfig c₁ s).interval
    rw [h]
    show jsOrNum (setConfig c₁ s).interval 8000 = (setConfig c₁ s).interval
    exact jsOrNum_of_ne_zero _ _ ht.1

/-- Witness for C8: the spec's example — `{interval: 5000, maxInterval: 40000}`
then `{interval: 6000}` leaves `maxInterval` at 40000. -/
theorem setConfig_partial_preserves_witness :
    (setConfig ⟨some 6000, none⟩
        (setConfig ⟨some 5000, some 40000⟩ (initialFields 8000))).maxInterval
      = (setConfig ⟨some 5000, some 40000⟩ (initialFields 8000)).maxInterval ∧
    (setConfig ⟨some 5000, some 40000⟩ (initialFields 8000)).maxInterval = 40000 :=
  ⟨(setConfig_partial_preserves (initialFields 8000)
      ⟨some 5000, some 40000⟩ ⟨some 6000, none⟩).1 rfl, by decide⟩

/-- C9: `interval = 1000`, `maxInterval = 10000`, `start(false)`, action
failing twice then succeeding: the scheduled delays are 1000 (initial),
2000 (after the 1st failure), 4000 (after the 2nd), then 1000 again. -/
theorem backoff_delay_sequence :
    scheduledDelays (run (mkPoller 8000 ⟨some 1000, some 10000⟩)
        [.start false, .fireStartTimer, .settle false 0, .fireTimer,
         .settle false 0, .fireTimer, .settle true 7]).2
      = [1000, 2000, 4000, 1000] ∧
    (run (mkPoller 8000 ⟨some 1000, some 10000⟩)
        [.start false, .fireStartTimer, .settle false 0, .fireTimer,
         .settle false 0, .fireTimer, .settle true 7]).2.map (·.invoked)
      = [false, true, false, true, false, true, false] := by
  decide

/-- C10: `new RxPoller(name)` with no config throws (`setConfig` reads
`config.interval` off `undefined`); with any config object supplied — even
one with both fields absent — construction under a fresh name succeeds. -/
theorem constructor_requires_config (reg : JSMap PollerState)
    (maxInit : Nat) (cfg : IRxPollerConfig) :
    constructRxPoller maxInit "posts" none reg = .error .typeErrorUndefined ∧
    exceptOk (constructRxPoller maxInit "posts" (some cfg) JSMap.empty) = true := by
  constructor
  · rfl
  · rfl
